import Mathlib
/-!
Verification of the stock-keeper home inventory application
(`app/db/schema.sql`, `app/db/database.js`, `app/routes/items.js`).

Shallow embedding conventions:
* Calendar dates are integers counting days (`date('now','localtime')` is the
  parameter `today`); the SQL `date(...)` comparisons are pure calendar-day
  comparisons on these integers.
* `julianday('now','localtime')` additionally carries the elapsed fraction of
  the local day; it is modelled by a parameter `m` of minutes since local
  midnight, `0 ≤ m < 1440`, so that
  `julianday(expiry) - julianday('now','localtime') = (expiry - today) - m/1440`.
* SQL `REAL` quantities are modelled by `ℚ`.
* JavaScript falsy-default idioms (`x || d`) are modelled by explicit
  functions on `Option`/`JsNum` values; `undefined`, `null`, `NaN`, `0` and
  `""` are the falsy values that occur.
* SQLite constraint checks (`NOT NULL`, `CHECK`, foreign keys — the code runs
  `PRAGMA foreign_keys = ON`) are evaluated at mutation time; a violated
  constraint aborts the statement, leaving the store unchanged, which the
  route handlers observe as a thrown error caught by their `try/catch`.
-/
namespace StockKeeper
/-- A JavaScript numeric value as produced by `parseFloat`: either `NaN` or a
number (modelled as a rational). `undefined` behaves identically to `NaN`
under the `||` defaulting used by the code. -/
inductive JsNum where
  | nan : JsNum
  | num : ℚ → JsNum
deriving DecidableEq
/-- JavaScript `x || d` for numbers: `NaN` (or `undefined`) and `0` are falsy. -/
def jsOrNum : JsNum → ℚ → ℚ
  | JsNum.nan, d => d
  | JsNum.num q, d => if q = 0 then d else q
/-- JavaScript `x || d` for an optional string: `undefined`/`null` and `""`
are falsy. -/
def jsOrStr : Option String → String → String
  | none, d => d
  | some s, d => if s = "" then d else s
/-- JavaScript `x || null` for an optional string: `""` collapses to `null`. -/
def jsStrOrNull : Option String → Option String
  | none => none
  | some s => if s = "" then none else some s
/-- JavaScript `x || null` for an optional row id: `0` is falsy (SQLite row
ids here start at 1, so this only matters for pathological input). -/
def jsIdOrNull : Option Nat → Option Nat
  | none => none
  | some n => if n = 0 then none else some n
/-- Row of the `items` table (schema.sql lines 48-95). `quantity` is `REAL`,
`expiry_date` is a nullable `DATE`. -/
structure Item where
  id : Nat
  title : String
  description : String
  category : String
  location : Option String
  location_id : Option Nat
  brand : Option String
  is_homemade : Bool
  quantity : ℚ
  unit : String
  date_added : Int
  expiry_date : Option Int
  image_path : Option String
deriving DecidableEq
/-- Row of the `locations` table (schema.sql lines 14-38). -/
structure Location where
  id : Nat
  name : String
  type : String
  icon : String
  color : String
  sort_order : Int
  is_visible : Bool
deriving DecidableEq
/-- Row of the `consumption_history` table (schema.sql lines 101-127).
The `item_id` column is declared `INTEGER NOT NULL`; it is modelled as an
`Option` so the declared `ON DELETE SET NULL` foreign-key action can be
expressed, with the `NOT NULL` constraint checked at mutation time. -/
structure ConsumptionRecord where
  id : Nat
  item_id : Option Nat
  item_title : String
  quantity_used : ℚ
  unit : String
  action : String
  notes : String
deriving DecidableEq
/-- The relational store: the three tables the claims are about, plus the
AUTOINCREMENT counters for the two id columns that matter. -/
structure DB where
  locations : List Location
  items : List Item
  history : List ConsumptionRecord
  nextItemId : Nat
  nextHistId : Nat
deriving DecidableEq
/-- The `CHECK(unit IN ('pcs','g','kg','ml','L'))` value set (schema.sql 78). -/
def validUnits : List String := ["pcs", "g", "kg", "ml", "L"]
/-- The `CHECK(action IN ('used','discarded','expired'))` value set
(schema.sql 117). -/
def validActions : List String := ["used", "discarded", "expired"]
/-- The `expiry_status` CASE expression of `getItems`
(database.js lines 153-159). -/
def getItemsExpiryStatus (expiry : Option Int) (today : Int) : String :=
  match expiry with
  | none => "none"
  | some e =>
    if e < today then "expired"
    else if e = today then "today"
    else if e ≤ today + 3 then "soon"
    else "ok"
/-- The `expiry_status` CASE expression of `getItemById`
(database.js lines 230-236); textually identical SQL to the one in
`getItems`, embedded separately to compare the two. -/
def getItemByIdExpiryStatus (expiry : Option Int) (today : Int) : String :=
  match expiry with
  | none => "none"
  | some e =>
    if e < today then "expired"
    else if e = today then "today"
    else if e ≤ today + 3 then "soon"
    else "ok"
/-- The spec's wording of the expiry-status rule (spec section 4.2), written
with the spec's own side conditions to be compared with the code's CASE
expressions. -/
def specExpiryStatus (expiry : Option Int) (today : Int) : String :=
  match expiry with
  | none => "none"
  | some e =>
    if e < today then "expired"
    else if e = today then "today"
    else if today < e ∧ e ≤ today + 3 then "soon"
    else "ok"
/-- SQLite `CAST(x AS INTEGER)` truncates toward zero; for `x = n / 1440`
with the denominator positive this is floor division on the absolute value,
signed back. -/
def castDiv1440 (n : Int) : Int :=
  if 0 ≤ n then n / 1440 else -((-n) / 1440)
/-- The `days_until_expiry` CASE expression
(database.js lines 160-163 and, textually identical, 237-240):
`CAST(julianday(i.expiry_date) - julianday('now','localtime') AS INTEGER)`.
`julianday` of a plain date string is that date at midnight while
`julianday('now','localtime')` carries the elapsed fraction of the local day,
so the difference is `(e - today) - m/1440` where `m` is minutes since local
midnight. -/
def daysUntilExpiry (expiry : Option Int) (today m : Int) : Option Int :=
  expiry.map (fun e => castDiv1440 ((e - today) * 1440 - m))
/-- Filter object accepted by `getItems` (database.js line 145). Fields are
optional; JavaScript truthiness guards each one, so `0` and `""` behave like
an absent filter. -/
structure Filters where
  locationId : Option Nat
  location : Option String
  category : Option String
  search : Option String
  expiryStatus : Option String
deriving DecidableEq
/-- The `LEFT JOIN locations l ON i.location_id = l.id`
(database.js line 165). -/
def joinedLocation (locs : List Location) (i : Item) : Option Location :=
  match i.location_id with
  | none => none
  | some lid => locs.find? (fun l => l.id == lid)
/-- SQLite `LIKE '%term%'`: case-insensitive substring containment
(the code always wraps the search term in `%...%`; metacharacters inside the
term are out of scope of the claims). -/
def likeContains (hay needle : String) : Bool :=
  decide (needle.toLower.toList <:+: hay.toLower.toList)
/-- The search clause
`(i.title LIKE ? OR i.description LIKE ? OR i.brand LIKE ?)`
(database.js lines 188-192); a NULL `brand` makes its disjunct NULL,
i.e. not satisfied. -/
def matchesSearch (s : String) (i : Item) : Bool :=
  likeContains i.title s || likeContains i.description s ||
    (match i.brand with
     | none => false
     | some b => likeContains b s)
/-- The `expiryStatus` switch of `getItems` (database.js lines 194-209).
A NULL `expiry_date` fails every SQL comparison, while the `ok` case
explicitly admits `i.expiry_date IS NULL`; an unknown bucket string adds no
condition. -/
def matchesExpiryFilter (b : String) (today : Int) (i : Item) : Bool :=
  if b = "expired" then
    match i.expiry_date with
    | none => false
    | some e => decide (e < today)
  else if b = "today" then
    match i.expiry_date with
    | none => false
    | some e => decide (e = today)
  else if b = "soon" then
    match i.expiry_date with
    | none => false
    | some e => decide (today < e) && decide (e ≤ today + 3)
  else if b = "ok" then
    match i.expiry_date with
    | none => true
    | some e => decide (today + 3 < e)
  else true
/-- The complete WHERE clause built by `getItems`
(database.js lines 166-209): a conjunction of the independently guarded
filters. NULL columns fail the equality comparisons. -/
def matchesFilters (locs : List Location) (today : Int) (fl : Filters)
    (i : Item) : Bool :=
  (match fl.locationId with
   | none => true
   | some v =>
     if v = 0 then true
     else match i.location_id with
          | none => false
          | some lid => lid == v) &&
  (match fl.location with
   | none => true
   | some s =>
     if s = "" then true
     else
       (match i.location with
        | none => false
        | some loc => loc == s) ||
       (match joinedLocation locs i with
        | none => false
        | some l => l.type == s)) &&
  (match fl.category with
   | none => true
   | some c => if c = "" then true else i.category == c) &&
  (match fl.search with
   | none => true
   | some s => if s = "" then true else matchesSearch s i) &&
  (match fl.expiryStatus with
   | none => true
   | some b => if b = "" then true else matchesExpiryFilter b today i)
/-- First ORDER BY key: `CASE WHEN i.expiry_date IS NULL THEN 1 ELSE 0 END`
(database.js line 212). -/
def nullKey (i : Item) : Nat :=
  match i.expiry_date with
  | none => 1
  | some _ => 0
/-- Second ORDER BY key, `i.expiry_date ASC`; within the NULL group (which
the first key isolates) all values are NULL and hence tie. -/
def expiryKey (i : Item) : Int :=
  match i.expiry_date with
  | none => 0
  | some e => e
/-- The ORDER BY of `getItems` (database.js line 212):
lexicographic on (NULL flag, expiry date, title). -/
def orderByKey (a b : Item) : Prop :=
  nullKey a < nullKey b ∨
    (nullKey a = nullKey b ∧
      (expiryKey a < expiryKey b ∨
        (expiryKey a = expiryKey b ∧ a.title ≤ b.title)))
instance : DecidableRel orderByKey := fun a b => by
  unfold orderByKey; infer_instance
instance : IsTotal Item orderByKey :=
  ⟨by
    intro a b
    unfold orderByKey
    rcases lt_trichotomy (nullKey a) (nullKey b) with h | h | h
    · exact Or.inl (Or.inl h)
    · rcases lt_trichotomy (expiryKey a) (expiryKey b) with h2 | h2 | h2
      · exact Or.inl (Or.inr ⟨h, Or.inl h2⟩)
      · rcases le_total a.title b.title with h3 | h3
        · exact Or.inl (Or.inr ⟨h, Or.inr ⟨h2, h3⟩⟩)
        · exact Or.inr (Or.inr ⟨h.symm, Or.inr ⟨h2.symm, h3⟩⟩)
      · exact Or.inr (Or.inr ⟨h.symm, Or.inl h2⟩)
    · exact Or.inr (Or.inl h)⟩
instance : IsTrans Item orderByKey :=
  ⟨by
    intro a b c hab hbc
    unfold orderByKey at hab hbc ⊢
    rcases hab with h1 | ⟨h1, h2 | ⟨h2, h3⟩⟩ <;>
      rcases hbc with g1 | ⟨g1, g2 | ⟨g2, g3⟩⟩
    · exact Or.inl (h1.trans g1)
    · exact Or.inl (lt_of_lt_of_eq h1 g1)
    · exact Or.inl (lt_of_lt_of_eq h1 g1)
    · exact Or.inl (lt_of_eq_of_lt h1 g1)
    · exact Or.inr ⟨h1.trans g1, Or.inl (h2.trans g2)⟩
    · exact Or.inr ⟨h1.trans g1, Or.inl (lt_of_lt_of_eq h2 g2)⟩
    · exact Or.inl (lt_of_eq_of_lt h1 g1)
    · exact Or.inr ⟨h1.trans g1, Or.inl (lt_of_eq_of_lt h2 g2)⟩
    · exact Or.inr ⟨h1.trans g1, Or.inr ⟨h2.trans g2, h3.trans g3⟩⟩⟩
/-- `getItems` (database.js lines 145-215): the filtered scan with the fixed
ORDER BY. The derived columns are functions of the returned rows
(`getItemsExpiryStatus`, `daysUntilExpiry`), so the result is modelled as the
ordered list of matching rows. -/
def getItems (db : DB) (today : Int) (fl : Filters) : List Item :=
  List.insertionSort orderByKey
    (db.items.filter (matchesFilters db.locations today fl))
/-- `getItemById` (database.js lines 222-246): point lookup on the primary
key; `undefined` when absent. -/
def getItemById (db : DB) (id : Nat) : Option Item :=
  db.items.find? (fun i => i.id == id)
/-- The `items` table constraints checked on INSERT/UPDATE
(schema.sql lines 48-95): `CHECK(quantity >= 0)`, the `unit` CHECK, the
`is_homemade` CHECK (satisfied by construction), and the foreign key on
`location_id` (the code runs `PRAGMA foreign_keys = ON`). -/
def itemRowOk (locs : List Location) (i : Item) : Bool :=
  decide (0 ≤ i.quantity) &&
  validUnits.contains i.unit &&
  (match i.location_id with
   | none => true
   | some lid => locs.any (fun l => l.id == lid))
/-- The argument object built by the create/update callers; `Option`/`JsNum`
fields model absent (`undefined`/`null`) and falsy values. -/
structure ItemInput where
  title : Option String
  description : Option String
  category : Option String
  location : Option String
  location_id : Option Nat
  brand : Option String
  is_homemade : Bool
  quantity : JsNum
  unit : Option String
  date_added : Option Int
  expiry_date : Option Int
  image_path : Option String
deriving DecidableEq
/-- The row assembled by the `createItem` INSERT parameter list
(database.js lines 261-274), for a present title `t` and the fresh id. -/
def createdItemRow (nid : Nat) (today : Int) (inp : ItemInput)
    (t : String) : Item :=
  { id := nid
    title := t
    description := jsOrStr inp.description ""
    category := jsOrStr inp.category "Uncategorized"
    location := jsStrOrNull inp.location
    location_id := jsIdOrNull inp.location_id
    brand := if inp.is_homemade then none else jsStrOrNull inp.brand
    is_homemade := inp.is_homemade
    quantity := jsOrNum inp.quantity 1
    unit := jsOrStr inp.unit "pcs"
    date_added := inp.date_added.getD today
    expiry_date := inp.expiry_date
    image_path := inp.image_path }
/-- `createItem` (database.js lines 253-275). Field defaults follow the
`||` defaulting of the INSERT parameter list; a missing `title` is rejected
by the `NOT NULL` column constraint (nothing validates it earlier), and the
other table constraints are checked by the INSERT. `today` stands for
`new Date().toISOString().split('T')[0]`. -/
def createItem (db : DB) (today : Int) (inp : ItemInput) : Except String DB :=
  match inp.title with
  | none => Except.error "NOT NULL constraint failed: items.title"
  | some t =>
    if itemRowOk db.locations (createdItemRow db.nextItemId today inp t) then
      Except.ok { db with
                  items := db.items ++ [createdItemRow db.nextItemId today inp t]
                  nextItemId := db.nextItemId + 1 }
    else Except.error "constraint failed: items"
/-- The per-row effect of the `updateItem` UPDATE statement
(database.js lines 284-316), for a present title `t` and `date_added` `da`:
every column is overwritten except `image_path`, which
`COALESCE(?, image_path)` preserves when no new path is supplied. -/
def applyItemUpdate (inp : ItemInput) (t : String) (da : Int)
    (old : Item) : Item :=
  { old with
    title := t
    description := jsOrStr inp.description ""
    category := jsOrStr inp.category "Uncategorized"
    location := jsStrOrNull inp.location
    location_id := jsIdOrNull inp.location_id
    brand := if inp.is_homemade then none else jsStrOrNull inp.brand
    is_homemade := inp.is_homemade
    quantity := jsOrNum inp.quantity 1
    unit := jsOrStr inp.unit "pcs"
    date_added := da
    expiry_date := inp.expiry_date
    image_path := inp.image_path.orElse (fun _ => old.image_path) }
/-- `updateItem` (database.js lines 283-317). Same defaulting as
`createItem`; `date_added` has no default here (the routes always supply
one). Constraints are checked on the updated rows. -/
def updateItem (db : DB) (id : Nat) (inp : ItemInput) : Except String DB :=
  match inp.title, inp.date_added with
  | none, _ => Except.error "NOT NULL constraint failed: items.title"
  | some _, none => Except.error "NOT NULL constraint failed: items.date_added"
  | some t, some da =>
    if (db.items.filter (fun i => i.id == id)).all
        (fun i => itemRowOk db.locations (applyItemUpdate inp t da i)) then
      Except.ok { db with
                  items := db.items.map
                    (fun i => if i.id == id then applyItemUpdate inp t da i
                              else i) }
    else Except.error "constraint failed: items"
/-- `updateItemQuantity` (database.js lines 325-327): overwrite the quantity
of the matching row; `CHECK(quantity >= 0)` applies to the modified row. -/
def updateItemQuantity (db : DB) (id : Nat) (q : ℚ) : Except String DB :=
  if db.items.any (fun i => i.id == id) && decide (q < 0) then
    Except.error "CHECK constraint failed: quantity"
  else
    Except.ok { db with
                items := db.items.map
                  (fun i => if i.id == id then { i with quantity := q } else i) }
/-- `deleteItem` (database.js lines 334-336): `DELETE FROM items WHERE id=?`.
With `PRAGMA foreign_keys = ON`, `consumption_history.item_id` declares
`ON DELETE SET NULL` (schema.sql 126) but the column is `NOT NULL`
(schema.sql 105): deleting a referenced item makes the SET NULL action
violate NOT NULL, so the statement fails and nothing changes. -/
def deleteItem (db : DB) (id : Nat) : Except String DB :=
  if db.items.any (fun i => i.id == id) &&
     db.history.any (fun r => r.item_id == some id) then
    Except.error "NOT NULL constraint failed: consumption_history.item_id"
  else
    Except.ok { db with items := db.items.filter (fun i => !(i.id == id)) }
/-- `logConsumption` (database.js lines 349-359): returns `null` (here
`none`) when the item does not exist; otherwise INSERTs a record snapshotting
the item's current title and unit, subject to the table's
`CHECK(quantity_used > 0)` and `action` CHECK. -/
def logConsumption (db : DB) (itemId : Nat) (quantityUsed : ℚ)
    (action : String) (notes : String) : Option (Except String DB) :=
  match getItemById db itemId with
  | none => none
  | some item =>
    some
      (if decide (0 < quantityUsed) && validActions.contains action then
        Except.ok
          { db with
            history := db.history ++
              [{ id := db.nextHistId
                 item_id := some itemId
                 item_title := item.title
                 quantity_used := quantityUsed
                 unit := item.unit
                 action := action
                 notes := notes }]
            nextHistId := db.nextHistId + 1 }
      else Except.error "constraint failed: consumption_history")
/-- Outcome of a mutation route, as observed by the caller. -/
inductive RouteResult where
  | notFound
  | okQuantity (newQuantity : ℚ)
  | okDone
  | serverError
deriving DecidableEq
/-- `POST /items/use/:id` (items.js lines 737-775): look the item up (404 if
absent), default the parsed amount with `|| 1`, log consumption of the
requested (unclamped) amount, then set the quantity to
`Math.max(0, quantity - amount)`. A thrown constraint violation is caught
and answered as a 500 with the store left as it was. -/
def useItemRoute (db : DB) (id : Nat) (amountParsed : JsNum)
    (notes : String) : RouteResult × DB :=
  match getItemById db id with
  | none => (RouteResult.notFound, db)
  | some item =>
    let amount := jsOrNum amountParsed 1
    let newQuantity := max 0 (item.quantity - amount)
    match logConsumption db item.id amount "used" notes with
    | none =>
      match updateItemQuantity db item.id newQuantity with
      | Except.error _ => (RouteResult.serverError, db)
      | Except.ok db2 => (RouteResult.okQuantity newQuantity, db2)
    | some (Except.error _) => (RouteResult.serverError, db)
    | some (Except.ok db1) =>
      match updateItemQuantity db1 item.id newQuantity with
      | Except.error _ => (RouteResult.serverError, db1)
      | Except.ok db2 => (RouteResult.okQuantity newQuantity, db2)
/-- `POST /items/discard/:id` (items.js lines 813-844): look the item up
(404 if absent), default the action with `|| 'discarded'`, log a consumption
record for the item's entire current quantity, then set the quantity to 0.
A thrown constraint violation is caught and answered as a 500. -/
def discardItemRoute (db : DB) (id : Nat) (actionRaw : Option String)
    (notes : String) : RouteResult × DB :=
  match getItemById db id with
  | none => (RouteResult.notFound, db)
  | some item =>
    let action := jsOrStr actionRaw "discarded"
    match logConsumption db item.id item.quantity action notes with
    | none =>
      match updateItemQuantity db item.id 0 with
      | Except.error _ => (RouteResult.serverError, db)
      | Except.ok db2 => (RouteResult.okDone, db2)
    | some (Except.error _) => (RouteResult.serverError, db)
    | some (Except.ok db1) =>
      match updateItemQuantity db1 item.id 0 with
      | Except.error _ => (RouteResult.serverError, db1)
      | Except.ok db2 => (RouteResult.okDone, db2)
/-- The quantity computed by `POST /items/create` before it reaches the data
layer: `parseFloat(req.body.quantity) || 1` (items.js line 594). -/
def routeCreateQuantity (parsed : JsNum) : ℚ :=
  jsOrNum parsed 1

/-- A row with no expiry date, used as a concrete input. -/
def noExpiryItem : Item :=
  { id := 1
    title := "Salt"
    description := ""
    category := "Uncategorized"
    location := none
    location_id := none
    brand := none
    is_homemade := false
    quantity := 1
    unit := "pcs"
    date_added := 0
    expiry_date := none
    image_path := none }
/-- A store holding only `noExpiryItem`. -/
def noExpiryDB : DB :=
  { locations := []
    items := [noExpiryItem]
    history := []
    nextItemId := 2
    nextHistId := 1 }
/-- The filter object selecting the `ok` bucket and nothing else. -/
def okBucketFilter : Filters :=
  { locationId := none
    location := none
    category := none
    search := none
    expiryStatus := some "ok" }
/-- The filter object selecting the `expired` bucket and nothing else. -/
def expiredBucketFilter : Filters :=
  { locationId := none
    location := none
    category := none
    search := none
    expiryStatus := some "expired" }
/-- The pairwise ordering property claimed for the item list: an item
lacking an expiry date never precedes one having one (equivalently, whatever
follows an item without expiry date also lacks one), and among items with
expiry dates the dates are ascending with ties broken by ascending title. -/
def specOrdered (a b : Item) : Prop :=
  (a.expiry_date = none → b.expiry_date = none) ∧
  (∀ ea eb, a.expiry_date = some ea → b.expiry_date = some eb →
    ea < eb ∨ (ea = eb ∧ a.title ≤ b.title))
/-- An empty store, used as a concrete input. -/
def emptyDB : DB :=
  { locations := []
    items := []
    history := []
    nextItemId := 1
    nextHistId := 1 }
/-- A homemade create input that also supplies a brand. -/
def brandInput : ItemInput :=
  { title := some "Jam"
    description := none
    category := none
    location := none
    location_id := none
    brand := some "Acme"
    is_homemade := true
    quantity := JsNum.num 1
    unit := none
    date_added := some 0
    expiry_date := none
    image_path := none }
/-- The store after creating `brandInput` in `emptyDB` at day 0. -/
def brandDB1 : DB :=
  { locations := []
    items := [createdItemRow 1 0 brandInput "Jam"]
    history := []
    nextItemId := 2
    nextHistId := 1 }
/-- A create input carrying quantity exactly 0. -/
def zeroQuantityInput : ItemInput :=
  { title := some "Rice"
    description := none
    category := none
    location := none
    location_id := none
    brand := none
    is_homemade := false
    quantity := JsNum.num 0
    unit := none
    date_added := some 0
    expiry_date := none
    image_path := none }
/-- The store after creating `zeroQuantityInput` in `emptyDB` at day 0. -/
def zeroQuantityDB1 : DB :=
  { locations := []
    items := [createdItemRow 1 0 zeroQuantityInput "Rice"]
    history := []
    nextItemId := 2
    nextHistId := 1 }
/-- An item with positive quantity, used as a concrete input. -/
def usableItem : Item :=
  { id := 1
    title := "Milk"
    description := ""
    category := "Dairy"
    location := none
    location_id := none
    brand := none
    is_homemade := false
    quantity := 5
    unit := "pcs"
    date_added := 0
    expiry_date := none
    image_path := none }
/-- A store holding only `usableItem`, with empty history. -/
def usableDB : DB :=
  { locations := []
    items := [usableItem]
    history := []
    nextItemId := 2
    nextHistId := 1 }
/-- An item whose quantity has already been depleted to 0. -/
def depletedItem : Item :=
  { id := 1
    title := "Yogurt"
    description := ""
    category := "Dairy"
    location := none
    location_id := none
    brand := none
    is_homemade := false
    quantity := 0
    unit := "pcs"
    date_added := 0
    expiry_date := none
    image_path := none }
/-- A store holding only `depletedItem`. -/
def depletedDB : DB :=
  { locations := []
    items := [depletedItem]
    history := []
    nextItemId := 2
    nextHistId := 1 }
/-- A consumption record referencing item 1, as `use` would append it. -/
def histRecord : ConsumptionRecord :=
  { id := 1
    item_id := some 1
    item_title := "Milk"
    quantity_used := 1
    unit := "pcs"
    action := "used"
    notes := "" }
/-- A store where item 1 has one consumption record. -/
def histDB : DB :=
  { locations := []
    items := [usableItem]
    history := [histRecord]
    nextItemId := 2
    nextHistId := 2 }
/-- A create input whose title is the empty string. -/
def emptyTitleInput : ItemInput :=
  { title := some ""
    description := none
    category := none
    location := none
    location_id := none
    brand := none
    is_homemade := false
    quantity := JsNum.num 1
    unit := none
    date_added := some 0
    expiry_date := none
    image_path := none }
/-- A create input with no title at all. -/
def noTitleInput : ItemInput :=
  { title := none
    description := none
    category := none
    location := none
    location_id := none
    brand := none
    is_homemade := false
    quantity := JsNum.num 1
    unit := none
    date_added := some 0
    expiry_date := none
    image_path := none }

/-! Theorems. -/

/-- C1: for every item, the derived `expiry_status` is a pure function of
(expiry_date, current local calendar date): `none` when the expiry date is
absent, `expired` when it is strictly before today, `today` when it equals
today, `soon` when it is after today and at most 3 days after today, `ok`
when it is more than 3 days after today — and the item list and the
single-item lookup compute statuses by the same rule. -/
theorem expiry_status_matches_spec (expiry : Option Int) (today : Int) :
    getItemsExpiryStatus expiry today = specExpiryStatus expiry today ∧
    getItemByIdExpiryStatus expiry today = specExpiryStatus expiry today := by
  cases expiry with
  | none => exact ⟨rfl, rfl⟩
  | some e =>
    unfold getItemsExpiryStatus getItemByIdExpiryStatus specExpiryStatus
    constructor <;> (dsimp only; split_ifs <;> first | rfl | omega)
/-- Helper: SQLite's integer CAST of `(d * 1440 - m) / 1440` with
`0 ≤ m < 1440`, in closed form. -/
theorem castDiv1440_closed_form (d m : Int) (h0 : 0 ≤ m) (h1 : m < 1440) :
    castDiv1440 (d * 1440 - m) = if 0 < d ∧ 0 < m then d - 1 else d := by
  unfold castDiv1440
  split_ifs <;> omega
/-- C7 counterexample: two calendar days before expiry, at noon local time
(720 minutes past midnight), the code computes `days_until_expiry = 1`, not
the whole-day calendar difference 2. -/
theorem days_until_expiry_not_calendar_difference :
    ¬ daysUntilExpiry (some 12) 10 720 = some ((12 : Int) - 10) := by decide
/-- C7 amended: `days_until_expiry` is null exactly when there is no expiry
date; with an expiry date it is the julianday difference truncated toward
zero: the whole-day calendar difference for expiry dates on or before today
(so negative for expired items), but for strictly future expiry dates it is
the calendar difference minus one whenever the current local time is past
midnight (the calendar difference itself exactly at local midnight). -/
theorem days_until_expiry_closed_form (e today m : Int)
    (h0 : 0 ≤ m) (h1 : m < 1440) :
    daysUntilExpiry none today m = none ∧
    daysUntilExpiry (some e) today m =
      some (if today < e ∧ 0 < m then e - today - 1 else e - today) := by
  refine ⟨rfl, ?_⟩
  unfold daysUntilExpiry
  rw [Option.map_some']
  rw [castDiv1440_closed_form (e - today) m h0 h1]
  by_cases h : today < e ∧ 0 < m
  · rw [if_pos h, if_pos ⟨by omega, h.2⟩]
  · rw [if_neg h, if_neg (fun hc => h ⟨by omega, hc.2⟩)]
/-- C7 witness: the amended statement evaluated at a concrete instant. -/
theorem days_until_expiry_closed_form_witness :
    daysUntilExpiry (some 12) 10 720 =
      some (if (10 : Int) < 12 ∧ (0 : Int) < 720 then 12 - 10 - 1
            else 12 - 10) :=
  (days_until_expiry_closed_form 12 10 720 (by decide) (by decide)).2
/-- Helper: membership in the `getItems` result is membership in the table
together with the WHERE clause. -/
theorem mem_getItems (db : DB) (today : Int) (fl : Filters) (i : Item) :
    i ∈ getItems db today fl ↔
      i ∈ db.items ∧ matchesFilters db.locations today fl i = true := by
  unfold getItems
  rw [List.mem_insertionSort, List.mem_filter]
/-- Helper: with a truthy `expiryStatus` filter present, the WHERE clause is
the conjunction of the remaining filters and the bucket condition. -/
theorem matchesFilters_expiry_split (locs : List Location) (today : Int)
    (fl : Filters) (b : String) (hb : fl.expiryStatus = some b)
    (hne : b ≠ "") (i : Item) :
    matchesFilters locs today fl i =
      (matchesFilters locs today { fl with expiryStatus := none } i &&
        matchesExpiryFilter b today i) := by
  unfold matchesFilters
  rw [hb]
  simp only [if_neg hne, Bool.and_true, Bool.and_assoc]
/-- Helper: the `expired` bucket condition is exactly the `expired` status. -/
theorem expiryFilter_expired_iff (today : Int) (i : Item) :
    matchesExpiryFilter "expired" today i = true ↔
      getItemsExpiryStatus i.expiry_date today = "expired" := by
  cases h : i.expiry_date with
  | none => simp [matchesExpiryFilter, getItemsExpiryStatus, h]
  | some e =>
    have hL : matchesExpiryFilter "expired" today i = decide (e < today) := by
      simp [matchesExpiryFilter, h]
    rw [hL]
    simp only [getItemsExpiryStatus, h, decide_eq_true_eq]
    constructor
    · intro hlt; rw [if_pos hlt]
    · intro hs; split_ifs at hs <;> simp_all
/-- Helper: the `today` bucket condition is exactly the `today` status. -/
theorem expiryFilter_today_iff (today : Int) (i : Item) :
    matchesExpiryFilter "today" today i = true ↔
      getItemsExpiryStatus i.expiry_date today = "today" := by
  cases h : i.expiry_date with
  | none => simp [matchesExpiryFilter, getItemsExpiryStatus, h]
  | some e =>
    have hL : matchesExpiryFilter "today" today i = decide (e = today) := by
      simp [matchesExpiryFilter, h]
    rw [hL]
    simp only [getItemsExpiryStatus, h, decide_eq_true_eq]
    constructor
    · intro he; rw [if_neg (by omega), if_pos he]
    · intro hs; split_ifs at hs <;> simp_all
/-- Helper: the `soon` bucket condition is exactly the `soon` status. -/
theorem expiryFilter_soon_iff (today : Int) (i : Item) :
    matchesExpiryFilter "soon" today i = true ↔
      getItemsExpiryStatus i.expiry_date today = "soon" := by
  cases h : i.expiry_date with
  | none => simp [matchesExpiryFilter, getItemsExpiryStatus, h]
  | some e =>
    have hL : matchesExpiryFilter "soon" today i =
        (decide (today < e) && decide (e ≤ today + 3)) := by
      simp [matchesExpiryFilter, h]
    rw [hL]
    simp only [getItemsExpiryStatus, h, Bool.and_eq_true, decide_eq_true_eq]
    constructor
    · rintro ⟨h1, h2⟩
      rw [if_neg (by omega), if_neg (by omega), if_pos (by omega)]
    · intro hs; split_ifs at hs <;> simp_all
      omega
/-- Helper: the `ok` bucket condition is the `ok` status **or** the absence
of an expiry date (`none` status) — the SQL clause explicitly admits
`expiry_date IS NULL`. -/
theorem expiryFilter_ok_iff (today : Int) (i : Item) :
    matchesExpiryFilter "ok" today i = true ↔
      (getItemsExpiryStatus i.expiry_date today = "ok" ∨
        getItemsExpiryStatus i.expiry_date today = "none") := by
  cases h : i.expiry_date with
  | none => simp [matchesExpiryFilter, getItemsExpiryStatus, h]
  | some e =>
    have hL : matchesExpiryFilter "ok" today i = decide (today + 3 < e) := by
      simp [matchesExpiryFilter, h]
    rw [hL]
    simp only [getItemsExpiryStatus, h, decide_eq_true_eq]
    constructor
    · intro hc
      exact Or.inl (by rw [if_neg (by omega), if_neg (by omega),
        if_neg (by omega)])
    · rintro (hs | hs) <;> split_ifs at hs <;> simp_all
/-- C2 amended: for every bucket `b` among `expired`, `today`, `soon` and
every combination of other active filters, `getItems` with `expiryStatus=b`
returns exactly the items, among those passing the other filters, whose
computed `expiry_status` equals `b`. For the `ok` bucket the filter returns
exactly the items whose status is `ok` **or** `none`: items without an
expiry date appear in the `ok` bucket (and, by the first part, in no
other). -/
theorem bucket_filter_exactness (db : DB) (today : Int) (fl : Filters)
    (b : String) (hb : fl.expiryStatus = some b) (i : Item) :
    (b = "expired" ∨ b = "today" ∨ b = "soon" →
      (i ∈ getItems db today fl ↔
        i ∈ getItems db today { fl with expiryStatus := none } ∧
          getItemsExpiryStatus i.expiry_date today = b)) ∧
    (b = "ok" →
      (i ∈ getItems db today fl ↔
        i ∈ getItems db today { fl with expiryStatus := none } ∧
          (getItemsExpiryStatus i.expiry_date today = "ok" ∨
            getItemsExpiryStatus i.expiry_date today = "none"))) := by
  have key : b ≠ "" →
      (i ∈ getItems db today fl ↔
        (i ∈ getItems db today { fl with expiryStatus := none } ∧
          matchesExpiryFilter b today i = true)) := by
    intro hne
    rw [mem_getItems, mem_getItems,
      matchesFilters_expiry_split db.locations today fl b hb hne i,
      Bool.and_eq_true]
    tauto
  constructor
  · rintro (rfl | rfl | rfl)
    · rw [key (by decide), expiryFilter_expired_iff]
    · rw [key (by decide), expiryFilter_today_iff]
    · rw [key (by decide), expiryFilter_soon_iff]
  · rintro rfl
    rw [key (by decide), expiryFilter_ok_iff]
/-- C2 counterexample: an item with no expiry date — computed status
`none` — is returned by the `expiryStatus=ok` filter, although its status is
not `ok`; so the `ok` bucket is not exactly the items whose status equals
`ok`, and status-`none` items do appear in a bucket. -/
theorem ok_bucket_admits_no_expiry_item :
    noExpiryItem ∈ getItems noExpiryDB 0 okBucketFilter ∧
    getItemsExpiryStatus noExpiryItem.expiry_date 0 = "none" ∧
    "none" ≠ "ok" := by decide
/-- C2 witness: the amended theorem applied to the concrete one-item store
with the `expired` bucket filter. -/
theorem bucket_filter_exactness_witness :
    noExpiryItem ∈ getItems noExpiryDB 0 expiredBucketFilter ↔
      noExpiryItem ∈ getItems noExpiryDB 0
          { expiredBucketFilter with expiryStatus := none } ∧
        getItemsExpiryStatus noExpiryItem.expiry_date 0 = "expired" :=
  (bucket_filter_exactness noExpiryDB 0 expiredBucketFilter "expired" rfl
    noExpiryItem).1 (Or.inl rfl)
/-- C8: for every combination of filters, the list returned by `getItems`
is ordered with all items lacking an expiry date after all items having
one; among items with an expiry date ascending by expiry date, ties broken
by ascending title. -/
theorem default_ordering_sorted (db : DB) (today : Int) (fl : Filters) :
    (getItems db today fl).Sorted specOrdered := by
  have h := List.sorted_insertionSort orderByKey
    (db.items.filter (matchesFilters db.locations today fl))
  refine List.Pairwise.imp ?_ h
  intro a b hab
  constructor
  · intro ha
    have ha1 : nullKey a = 1 := by unfold nullKey; rw [ha]
    have hble : nullKey b ≤ 1 := by
      unfold nullKey; cases b.expiry_date <;> simp
    rcases hab with h1 | ⟨h1, _⟩
    · omega
    · have hb1 : nullKey b = 1 := by omega
      unfold nullKey at hb1
      cases hb : b.expiry_date with
      | none => rfl
      | some e => rw [hb] at hb1; simp at hb1
  · intro ea eb hea heb
    have ha0 : nullKey a = 0 := by unfold nullKey; rw [hea]
    have hb0 : nullKey b = 0 := by unfold nullKey; rw [heb]
    have hka : expiryKey a = ea := by unfold expiryKey; rw [hea]
    have hkb : expiryKey b = eb := by unfold expiryKey; rw [heb]
    rcases hab with h1 | ⟨h1, h2 | ⟨h2, h3⟩⟩
    · omega
    · exact Or.inl (by omega)
    · exact Or.inr ⟨by omega, h3⟩
/-- Helper: the result of `find?` on a list mapped by an id-preserving
in-place update is an updated row. -/
theorem find?_map_update (l : List Item) (id : Nat) (upd : Item → Item)
    (hid : ∀ i, (upd i).id = i.id) (r : Item)
    (h : (l.map (fun i => if i.id == id then upd i else i)).find?
        (fun i => i.id == id) = some r) :
    ∃ i0, i0 ∈ l ∧ r = upd i0 := by
  induction l with
  | nil => simp at h
  | cons a l ih =>
    rw [List.map_cons] at h
    by_cases ha : (a.id == id) = true
    · rw [if_pos ha, List.find?_cons_of_pos _ (by rw [hid a]; exact ha)] at h
      exact ⟨a, List.mem_cons_self a l, by injection h with h2; exact h2.symm⟩
    · rw [if_neg ha, List.find?_cons_of_neg _ (by simpa using ha)] at h
      obtain ⟨i0, hi0, hr⟩ := ih h
      exact ⟨i0, List.mem_cons_of_mem a hi0, hr⟩
/-- C9: creating (or updating) an item with the homemade flag set stores no
brand, whatever brand was supplied: reading the item back yields
`is_homemade = true` and a null brand. -/
theorem homemade_clears_brand (db db1 db2 : DB) (today : Int)
    (inp : ItemInput) (id : Nat) (hmade : inp.is_homemade = true) :
    (createItem db today inp = Except.ok db1 →
      (∀ i ∈ db.items, i.id < db.nextItemId) →
      ∃ r, getItemById db1 db.nextItemId = some r ∧
        r.brand = none ∧ r.is_homemade = true) ∧
    (updateItem db id inp = Except.ok db2 →
      ∀ r, getItemById db2 id = some r →
        r.brand = none ∧ r.is_homemade = true) := by
  constructor
  · intro hok hids
    unfold createItem at hok
    cases ht : inp.title with
    | none => rw [ht] at hok; exact absurd hok (by simp)
    | some t =>
      rw [ht] at hok
      dsimp only at hok
      split at hok
      · have hdb1 : db1 = { db with
            items := db.items ++ [createdItemRow db.nextItemId today inp t]
            nextItemId := db.nextItemId + 1 } := by
          cases hok; rfl
        refine ⟨createdItemRow db.nextItemId today inp t, ?_, ?_, ?_⟩
        · rw [hdb1]
          unfold getItemById
          rw [List.find?_append, List.find?_eq_none.mpr, Option.none_or]
          · rw [List.find?_cons_of_pos _ (by simp [createdItemRow])]
          · intro x hx
            simp only [beq_iff_eq]
            exact Nat.ne_of_lt (hids x hx)
        · simp [createdItemRow, hmade]
        · simp [createdItemRow, hmade]
      · exact absurd hok (by simp)
  · intro hok r hr
    unfold updateItem at hok
    cases ht : inp.title with
    | none => rw [ht] at hok; exact absurd hok (by simp)
    | some t =>
      cases hda : inp.date_added with
      | none => rw [ht, hda] at hok; exact absurd hok (by simp)
      | some da =>
        rw [ht, hda] at hok
        dsimp only at hok
        split at hok
        · have hdb2 : db2 = { db with
              items := db.items.map
                (fun i => if i.id == id then applyItemUpdate inp t da i
                          else i) } := by
            cases hok; rfl
          rw [hdb2] at hr
          unfold getItemById at hr
          obtain ⟨i0, _, hr0⟩ :=
            find?_map_update db.items id (applyItemUpdate inp t da)
              (fun i => rfl) r hr
          subst hr0
          exact ⟨by simp [applyItemUpdate, hmade],
            by simp [applyItemUpdate, hmade]⟩
        · exact absurd hok (by simp)
/-- C9 witness: the create half applied to the concrete homemade input
carrying brand "Acme". -/
theorem homemade_clears_brand_witness :
    ∃ r, getItemById brandDB1 1 = some r ∧
      r.brand = none ∧ r.is_homemade = true :=
  (homemade_clears_brand emptyDB brandDB1 brandDB1 0 brandInput 1 rfl).1
    rfl (by intro i hi; simp [emptyDB] at hi)
/-- Helper: the `|| 1` defaulting never produces 0. -/
theorem jsOrNum_one_ne_zero (p : JsNum) : jsOrNum p 1 ≠ 0 := by
  cases p with
  | nan => simp [jsOrNum]
  | num q =>
    simp only [jsOrNum]
    split_ifs with h
    · norm_num
    · exact h
/-- C10: the default of 1 replaces every falsy quantity (0, absent/NaN) in
the create route's numeric parsing and in the data layer, so no item row can
acquire quantity 0 through create or update: every row of the resulting
store is either an untouched pre-existing row or carries the defaulted
quantity `jsOrNum inp.quantity 1`, which is never 0. -/
theorem quantity_zero_defaults_to_one :
    (∀ p : JsNum, routeCreateQuantity p ≠ 0) ∧
    routeCreateQuantity (JsNum.num 0) = 1 ∧
    routeCreateQuantity JsNum.nan = 1 ∧
    (∀ p : JsNum, jsOrNum p 1 ≠ 0) ∧
    (∀ db today inp db1, createItem db today inp = Except.ok db1 →
      ∀ i ∈ db1.items, i ∈ db.items ∨ i.quantity = jsOrNum inp.quantity 1) ∧
    (∀ db id inp db2, updateItem db id inp = Except.ok db2 →
      ∀ i ∈ db2.items, i ∈ db.items ∨ i.quantity = jsOrNum inp.quantity 1) := by
  refine ⟨fun p => jsOrNum_one_ne_zero p, rfl, rfl,
    fun p => jsOrNum_one_ne_zero p, ?_, ?_⟩
  · intro db today inp db1 hok i hi
    unfold createItem at hok
    cases ht : inp.title with
    | none => rw [ht] at hok; exact absurd hok (by simp)
    | some t =>
      rw [ht] at hok
      dsimp only at hok
      split at hok
      · have hdb1 : db1 = { db with
            items := db.items ++ [createdItemRow db.nextItemId today inp t]
            nextItemId := db.nextItemId + 1 } := by cases hok; rfl
        rw [hdb1] at hi
        rcases List.mem_append.mp hi with h | h
        · exact Or.inl h
        · rcases List.mem_singleton.mp h with rfl
          exact Or.inr rfl
      · exact absurd hok (by simp)
  · intro db id inp db2 hok i hi
    unfold updateItem at hok
    cases ht : inp.title with
    | none => rw [ht] at hok; exact absurd hok (by simp)
    | some t =>
      cases hda : inp.date_added with
      | none => rw [ht, hda] at hok; exact absurd hok (by simp)
      | some da =>
        rw [ht, hda] at hok
        dsimp only at hok
        split at hok
        · have hdb2 : db2 = { db with
              items := db.items.map
                (fun i => if i.id == id then applyItemUpdate inp t da i
                          else i) } := by cases hok; rfl
          rw [hdb2] at hi
          obtain ⟨x, hx, hfx⟩ := List.mem_map.mp hi
          by_cases hid : (x.id == id) = true
          · rw [if_pos hid] at hfx
            exact Or.inr (by rw [← hfx]; rfl)
          · rw [if_neg hid] at hfx
            exact Or.inl (hfx ▸ hx)
        · exact absurd hok (by simp)
/-- C10 witness: the create half evaluated on a concrete quantity-0 input;
the created row's stored quantity is the defaulted value. -/
theorem quantity_zero_defaults_to_one_witness :
    createdItemRow 1 0 zeroQuantityInput "Rice" ∈ emptyDB.items ∨
      (createdItemRow 1 0 zeroQuantityInput "Rice").quantity =
        jsOrNum zeroQuantityInput.quantity 1 :=
  quantity_zero_defaults_to_one.2.2.2.2.1 emptyDB 0 zeroQuantityInput
    zeroQuantityDB1 rfl (createdItemRow 1 0 zeroQuantityInput "Rice")
    (List.mem_singleton.mpr rfl)
/-- Helper: the `|| 1` defaulting leaves a nonzero parsed amount alone. -/
theorem jsOrNum_num_of_ne (a : ℚ) (h : a ≠ 0) : jsOrNum (JsNum.num a) 1 = a := by
  simp [jsOrNum, h]
/-- Helper: a successful consumption INSERT for an existing item, positive
quantity and legal action. -/
theorem logConsumption_ok (db : DB) (itemId : Nat) (item : Item)
    (hfind : getItemById db itemId = some item) (q : ℚ) (hq : 0 < q)
    (a : String) (ha : validActions.contains a = true) (notes : String) :
    logConsumption db itemId q a notes =
      some (Except.ok
        { db with
          history := db.history ++
            [{ id := db.nextHistId
               item_id := some itemId
               item_title := item.title
               quantity_used := q
               unit := item.unit
               action := a
               notes := notes }]
          nextHistId := db.nextHistId + 1 }) := by
  unfold logConsumption
  rw [hfind]
  dsimp only
  rw [if_pos (by rw [decide_eq_true hq, ha]; rfl)]
/-- Helper: a quantity overwrite with a non-negative value passes the CHECK
and rewrites the matching row. -/
theorem updateItemQuantity_nonneg (db : DB) (id : Nat) (q : ℚ)
    (hq : 0 ≤ q) :
    updateItemQuantity db id q =
      Except.ok
        { db with
          items := db.items.map
            (fun i => if i.id == id then { i with quantity := q } else i) } := by
  unfold updateItemQuantity
  rw [if_neg]
  intro hc
  rcases (Bool.and_eq_true _ _).mp hc with ⟨_, h2⟩
  exact absurd (of_decide_eq_true h2) (not_lt.mpr hq)
/-- C3 amended: for every existing item and every **positive** amount, the
use route appends exactly one consumption record — action `used`,
`quantity_used` the amount actually requested (not clamped), title and unit
snapshotted from the item — and then sets the quantity to
`max(0, quantity - amount)`, never negative; a missing item yields a
not-found signal with nothing written. (A negative amount instead violates
the `CHECK(quantity_used > 0)` constraint: the route answers 500 and writes
nothing — see the counterexample.) -/
theorem use_appends_record_and_clamps (db : DB) (id : Nat) (item : Item)
    (amount : ℚ) (notes : String)
    (hfind : getItemById db id = some item) (hpos : 0 < amount) :
    useItemRoute db id (JsNum.num amount) notes =
      (RouteResult.okQuantity (max 0 (item.quantity - amount)),
        { db with
          items := db.items.map
            (fun i => if i.id == item.id then
                { i with quantity := max 0 (item.quantity - amount) }
              else i)
          history := db.history ++
            [{ id := db.nextHistId
               item_id := some item.id
               item_title := item.title
               quantity_used := amount
               unit := item.unit
               action := "used"
               notes := notes }]
          nextHistId := db.nextHistId + 1 }) ∧
    (∀ db0 : DB, getItemById db0 id = none →
      useItemRoute db0 id (JsNum.num amount) notes =
        (RouteResult.notFound, db0)) := by
  constructor
  · have hne : amount ≠ 0 := ne_of_gt hpos
    have hid : item.id = id := by
      have h := List.find?_some hfind
      simpa using h
    have hfind2 : getItemById db item.id = some item := by
      rw [hid]; exact hfind
    unfold useItemRoute
    rw [hfind]
    dsimp only
    rw [jsOrNum_num_of_ne amount hne,
      logConsumption_ok db item.id item hfind2 amount hpos "used" rfl notes]
    dsimp only
    rw [updateItemQuantity_nonneg _ item.id _ (le_max_left 0 _)]
  · intro db0 h0
    unfold useItemRoute
    rw [h0]
/-- C3 counterexample: a negative requested amount (`parseFloat` accepts
`"-1"` and `-1 || 1` keeps it) makes the consumption INSERT violate
`CHECK(quantity_used > 0)`: the route answers 500 and appends no record —
the claim's unconditional "appends exactly one consumption record ... for
every amount" fails. -/
theorem use_negative_amount_writes_nothing :
    useItemRoute usableDB 1 (JsNum.num (-1)) "" =
      (RouteResult.serverError, usableDB) ∧
    usableDB.history = [] := by decide
/-- C3 witness: the amended theorem applied to the concrete store, using
2 of quantity 5. -/
theorem use_appends_record_and_clamps_witness :
    useItemRoute usableDB 1 (JsNum.num 2) "" =
      (RouteResult.okQuantity (max 0 (usableItem.quantity - 2)),
        { usableDB with
          items := usableDB.items.map
            (fun i => if i.id == usableItem.id then
                { i with quantity := max 0 (usableItem.quantity - 2) }
              else i)
          history := usableDB.history ++
            [{ id := usableDB.nextHistId
               item_id := some usableItem.id
               item_title := usableItem.title
               quantity_used := 2
               unit := usableItem.unit
               action := "used"
               notes := "" }]
          nextHistId := usableDB.nextHistId + 1 }) :=
  (use_appends_record_and_clamps usableDB 1 usableItem 2 "" rfl
    (by norm_num)).1
/-- C4 amended: for every existing item with **positive** quantity and kind
`discarded` or `expired`, the discard route appends one consumption record
for the item's entire prior quantity and then sets the quantity to 0. (An
item already at quantity 0 instead violates `CHECK(quantity_used > 0)`: the
route answers 500 and appends no record — see the counterexample.) -/
theorem discard_logs_entire_quantity (db : DB) (id : Nat) (item : Item)
    (kind : String) (notes : String)
    (hfind : getItemById db id = some item) (hqty : 0 < item.quantity)
    (hkind : kind = "discarded" ∨ kind = "expired") :
    discardItemRoute db id (some kind) notes =
      (RouteResult.okDone,
        { db with
          items := db.items.map
            (fun i => if i.id == item.id then { i with quantity := 0 }
                      else i)
          history := db.history ++
            [{ id := db.nextHistId
               item_id := some item.id
               item_title := item.title
               quantity_used := item.quantity
               unit := item.unit
               action := kind
               notes := notes }]
          nextHistId := db.nextHistId + 1 }) := by
  have hid : item.id = id := by
    have h := List.find?_some hfind
    simpa using h
  have hfind2 : getItemById db item.id = some item := by
    rw [hid]; exact hfind
  have hkne : kind ≠ "" := by
    rcases hkind with rfl | rfl <;> decide
  have hact : validActions.contains kind = true := by
    rcases hkind with rfl | rfl <;> rfl
  unfold discardItemRoute
  rw [hfind]
  dsimp only
  rw [show jsOrStr (some kind) "discarded" = kind by simp [jsOrStr, hkne],
    logConsumption_ok db item.id item hfind2 item.quantity hqty kind hact
      notes]
  dsimp only
  rw [updateItemQuantity_nonneg _ item.id 0 le_rfl]
/-- C4 counterexample: discarding an existing item whose quantity is 0 makes
the INSERT of `quantity_used = 0` violate `CHECK(quantity_used > 0)`: the
route answers 500 and appends no record, although the claim promises a
record for every existing item. -/
theorem discard_depleted_item_writes_nothing :
    discardItemRoute depletedDB 1 (some "discarded") "" =
      (RouteResult.serverError, depletedDB) ∧
    depletedDB.history = [] := by decide
/-- C4 witness: the amended theorem applied to the concrete store, with the
full quantity 5 logged and the quantity zeroed. -/
theorem discard_logs_entire_quantity_witness :
    discardItemRoute usableDB 1 (some "discarded") "" =
      (RouteResult.okDone,
        { usableDB with
          items := usableDB.items.map
            (fun i => if i.id == usableItem.id then { i with quantity := 0 }
                      else i)
          history := usableDB.history ++
            [{ id := usableDB.nextHistId
               item_id := some usableItem.id
               item_title := usableItem.title
               quantity_used := usableItem.quantity
               unit := usableItem.unit
               action := "discarded"
               notes := "" }]
          nextHistId := usableDB.nextHistId + 1 }) :=
  discard_logs_entire_quantity usableDB 1 usableItem "discarded" "" rfl
    (by norm_num [usableItem]) (Or.inl rfl)
/-- C5: deleting an item that has a consumption record does **not** succeed:
with foreign keys enabled, the declared `ON DELETE SET NULL` action must
write NULL into `consumption_history.item_id`, a column declared `NOT NULL`,
so SQLite rejects the DELETE and the statement is rolled back — contradicting
the schema's own comment that the record survives the deletion with its
reference nulled. The record keeps its original snapshot and `item_id`. -/
theorem delete_item_with_history_fails :
    deleteItem histDB 1 =
      Except.error "NOT NULL constraint failed: consumption_history.item_id" ∧
    histDB.history.map ConsumptionRecord.item_id = [some 1] ∧
    histDB.history.map ConsumptionRecord.item_title = ["Milk"] :=
  ⟨rfl, rfl, rfl⟩
/-- C6 counterexample: a create input whose title is the empty string is not
rejected — a row with empty title is persisted (`''` satisfies the `NOT
NULL` column constraint and nothing else validates the title). -/
theorem empty_title_creates_row :
    createItem emptyDB 0 emptyTitleInput =
      Except.ok
        { locations := []
          items := [createdItemRow 1 0 emptyTitleInput ""]
          history := []
          nextItemId := 2
          nextHistId := 1 } ∧
    (createdItemRow 1 0 emptyTitleInput "").title = "" := ⟨rfl, rfl⟩
/-- C6 amended: no empty-title validation exists. A missing (null) title is
rejected — by the store's `NOT NULL` constraint at persistence time, with no
row created — while any present title string, the empty string included, is
persisted as-is in exactly one new row. -/
theorem title_validation (db : DB) (today : Int) (inp : ItemInput) :
    (inp.title = none →
      createItem db today inp =
        Except.error "NOT NULL constraint failed: items.title") ∧
    (∀ t db1, inp.title = some t → createItem db today inp = Except.ok db1 →
      ∃ r, db1.items = db.items ++ [r] ∧ r.title = t) := by
  constructor
  · intro h
    unfold createItem
    rw [h]
  · intro t db1 ht hok
    unfold createItem at hok
    rw [ht] at hok
    dsimp only at hok
    split at hok
    · exact ⟨createdItemRow db.nextItemId today inp t, by cases hok; rfl, rfl⟩
    · exact absurd hok (by simp)
/-- C6 witness: the amended theorem applied to the concrete title-less
input — the INSERT fails and no row is written. -/
theorem title_validation_witness :
    createItem emptyDB 0 noTitleInput =
      Except.error "NOT NULL constraint failed: items.title" :=
  (title_validation emptyDB 0 noTitleInput).1 rfl
end StockKeeper
